import Mathlib

/-!
Verification development for the webhook-services STT delivery pipeline.

The definitions below are a shallow embedding of the TypeScript sources:
STTDeduplicationService (canSendToSTT, acquireLock, releaseLock,
cleanupStuckLocks), STTSendService (sendToSTT, buildPayload,
buildPayloadFromPrisma, registrarErro, atualizarResultado,
calculateNextRetry), STTService (findPendingConsultas, processarPendentes)
and the controller reset used by the retry-voucher endpoint.

Time is modelled as Nat milliseconds.  The database is a list of control
rows; raw SQL UPDATE statements become List.map over the rows matching the
WHERE clause, and the INSERT ... ON CONFLICT upsert of acquireLock becomes
a case split on whether a row with the consulta id already exists.
External effects (record fetch, document rendering, HTTP dispatch) are
supplied through an environment record, mirroring the awaited calls.
-/

namespace WebhookSTT

/-- Lock timeout in milliseconds: config.timeouts.lockTimeoutMinutes
(default 5) times 60 * 1000, as computed in the service constructor. -/
def LOCK_TIMEOUT_MS : Nat := 5 * 60 * 1000

/-- Fixed retry backoff used by calculateNextRetry: 30 minutes in ms. -/
def RETRY_BACKOFF_MS : Nat := 30 * 60 * 1000

/-- Delivery control row, following the STTEnvioControle interface in
stt.types.ts (one row per consulta, unique on consultaId). -/
structure Controle where
  consultaId : String
  voucher : String
  enviado : Bool := false
  dataEnvio : Option Nat := none
  tentativas : Nat := 0
  ultimaTentativa : Option Nat := none
  proximoRetry : Option Nat := none
  processandoDesde : Option Nat := none
  respostaStatusCode : Option Int := none
  respostaBody : Option String := none
  respostaHeaders : Option String := none
  respostaErro : Option String := none
  payloadEnviado : Option String := none
  pacienteNome : Option String := none
  profissionalNome : Option String := none
  profissionalRegistro : Option String := none
  codigoInternoStt : Option String := none
  createdAt : Nat := 0
  updatedAt : Nat := 0
  deriving Repr, DecidableEq

/-- Abstract rendering of Date.toLocaleString in the pt-BR locale; the
model only needs an injective printable form of the timestamp. -/
def toLocaleStringPtBR (d : Nat) : String := "data" ++ toString d

/-- Rendering of the optional dataEnvio used in the canSendToSTT reason,
matching the ternary on controle[0].dataEnvio. -/
def fmtDataEnvio : Option Nat → String
  | some d => toLocaleStringPtBR d
  | none => "data desconhecida"

/-- Result shape of STTDeduplicationService.canSendToSTT. -/
structure CanSendResult where
  canSend : Bool
  reason : Option String := none
  deriving Repr, DecidableEq

/-- Predicate of the first canSendToSTT query: enviado = true AND
resposta_status_code = 200 for the given consulta. -/
def jaEnviadoPred (cid : String) (r : Controle) : Bool :=
  r.consultaId == cid && r.enviado && r.respostaStatusCode == some 200

/-- Predicate of the second canSendToSTT query: processando_desde IS NOT
NULL AND processando_desde > NOW() - lock timeout. -/
def emProcessamentoPred (now : Nat) (cid : String) (r : Controle) : Bool :=
  r.consultaId == cid &&
    (match r.processandoDesde with
      | some pd => decide (now < pd + LOCK_TIMEOUT_MS)
      | none => false)

/-- Shallow embedding of STTDeduplicationService.canSendToSTT: first check
for a successful prior send, then for a live in-processing lock. -/
def canSendToSTT (db : List Controle) (now : Nat) (cid : String) : CanSendResult :=
  match db.find? (jaEnviadoPred cid) with
  | some r =>
      { canSend := false
        reason := some ("Ja enviado com sucesso em " ++ fmtDataEnvio r.dataEnvio) }
  | none =>
    match db.find? (emProcessamentoPred now cid) with
    | some r =>
        let pd := r.processandoDesde.getD 0
        { canSend := false
          reason := some ("Em processamento ha " ++ toString ((now - pd) / 1000) ++ "s") }
    | none => { canSend := true }

/-- WHERE clause of the ON CONFLICT DO UPDATE in acquireLock: enviado =
false OR resposta_status_code != 200 OR resposta_status_code IS NULL. -/
def acquireUpdWhere (r : Controle) : Bool :=
  r.enviado == false || r.respostaStatusCode != some 200 ||
    r.respostaStatusCode == none

/-- CASE condition deciding whether processando_desde is overwritten with
NOW(): it is NULL, or older than the lock timeout, or enviado = true. -/
def lockStale (now : Nat) (r : Controle) : Bool :=
  (match r.processandoDesde with
    | none => true
    | some pd => decide (pd + LOCK_TIMEOUT_MS < now)) || r.enviado

/-- Row update applied by the DO UPDATE branch of acquireLock. -/
def acquireUpdRow (now : Nat) (r : Controle) : Controle :=
  { r with
    tentativas := r.tentativas + 1
    ultimaTentativa := some now
    processandoDesde := if lockStale now r then some now else r.processandoDesde
    updatedAt := now }

/-- Fresh row inserted by acquireLock when no row exists for the consulta. -/
def acquireNewRow (now : Nat) (cid v : String) : Controle :=
  { consultaId := cid, voucher := v, enviado := false, tentativas := 1,
    ultimaTentativa := some now, processandoDesde := some now,
    createdAt := now, updatedAt := now }

/-- Shallow embedding of STTDeduplicationService.acquireLock, the
INSERT ... ON CONFLICT (consulta_id) DO UPDATE upsert.  The Bool is the
rows-affected > 0 test the caller interprets as lock acquisition. -/
def acquireLock (db : List Controle) (now : Nat) (cid v : String) :
    Bool × List Controle :=
  match db.find? (fun r => r.consultaId == cid) with
  | none => (true, db ++ [acquireNewRow now cid v])
  | some _ =>
      let affected := db.any (fun r => r.consultaId == cid && acquireUpdWhere r)
      (affected,
       db.map (fun r =>
         if r.consultaId == cid && acquireUpdWhere r then acquireUpdRow now r else r))

/-- Shallow embedding of STTDeduplicationService.releaseLock: set
processando_desde to NULL on every row of the consulta. -/
def releaseLock (db : List Controle) (now : Nat) (cid : String) : List Controle :=
  db.map (fun r =>
    if r.consultaId == cid then
      { r with processandoDesde := none, updatedAt := now }
    else r)

/-- Predicate of the cleanupStuckLocks UPDATE: processando_desde set,
older than twice the lock timeout, and enviado = false. -/
def stuckPred (now : Nat) (r : Controle) : Bool :=
  (match r.processandoDesde with
    | some pd => decide (pd + 2 * LOCK_TIMEOUT_MS < now)
    | none => false) && r.enviado == false

/-- Shallow embedding of STTDeduplicationService.cleanupStuckLocks:
clears stale locks and returns the number of rows affected. -/
def cleanupStuckLocks (db : List Controle) (now : Nat) : Nat × List Controle :=
  ((db.filter (stuckPred now)).length,
   db.map (fun r =>
     if stuckPred now r then { r with processandoDesde := none, updatedAt := now }
     else r))

/-- Shallow embedding of STTSendService.calculateNextRetry: a fixed
30-minute delay from now, despite the exponential-backoff comment. -/
def calculateNextRetry (now : Nat) : Nat := now + RETRY_BACKOFF_MS

/-- Shallow embedding of STTSendService.registrarErro: writes the error
text, the optional status code, the computed proximo_retry, and clears
processando_desde on the rows of the consulta. -/
def registrarErro (db : List Controle) (now : Nat) (cid : String)
    (msg : String) (statusCode : Option Int) : List Controle :=
  db.map (fun r =>
    if r.consultaId == cid then
      { r with
        respostaErro := some msg
        respostaStatusCode := statusCode
        proximoRetry := some (calculateNextRetry now)
        processandoDesde := none
        updatedAt := now }
    else r)

/-- Shallow embedding of the controller UPDATE used by the retry-voucher
endpoint: reset enviado, the lock and proximo_retry, and decrement
tentativas with GREATEST(tentativas - 1, 0). -/
def resetControle (db : List Controle) (now : Nat) (cid : String) : List Controle :=
  db.map (fun r =>
    if r.consultaId == cid then
      { r with
        enviado := false
        processandoDesde := none
        tentativas := r.tentativas - 1
        proximoRetry := none
        updatedAt := now }
    else r)

/-- CID entry of an evolucao, as selected by the raw query. -/
structure Cid where
  codigo : String
  descricao : String
  principal : Bool
  deriving Repr, DecidableEq

/-- Clinical-note fields of a consulta (the evolucao block of
ConsultaCompleta in stt.types.ts); optional fields are Option. -/
structure Evolucao where
  status : Option String := none
  tipoAtendimentoMedico : Option String := none
  queixaDuracao : Option String := none
  tipoQueixa : Option String := none
  historiaProgressa : Option String := none
  antecedentePessoal : Option Bool := none
  antecedentePessoalDetalhes : Option String := none
  diagnosticoDetalhado : Option String := none
  hipoteseDiagnostica : Option String := none
  conduta : Option String := none
  atestado : Option Bool := none
  prescricao : Option Bool := none
  solicitacaoExames : Option Bool := none
  desfecho : Option String := none
  cids : Option (List Cid) := none
  deriving Repr, DecidableEq

/-- Scheduling linkage of a consulta (agendamentoStt). -/
structure AgendamentoStt where
  codigoInterno : String
  origem : String
  deriving Repr, DecidableEq

/-- Timing milestones of a consulta (consultaTempo). -/
structure ConsultaTempo where
  atendimentoIniciadoEm : Option Nat := none
  atendimentoFinalizadoEm : Option Nat := none
  profissionalAcessouEm : Option Nat := none
  deriving Repr, DecidableEq

/-- Patient block of a consulta. -/
structure Paciente where
  nome : String
  cpf : Option String := none
  deriving Repr, DecidableEq

/-- User block of a profissional. -/
structure UserRec where
  name : String
  deriving Repr, DecidableEq

/-- Professional block of a consulta. -/
structure Profissional where
  registro : Option String := none
  user : Option UserRec := none
  deriving Repr, DecidableEq

/-- Fetched consulta shape, following ConsultaCompleta in stt.types.ts. -/
structure ConsultaCompleta where
  id : String
  voucher : String
  status : String
  dataRealizada : Option Nat := none
  evolucao : Option Evolucao := none
  agendamentoStt : Option AgendamentoStt := none
  consultaTempo : Option ConsultaTempo := none
  paciente : Option Paciente := none
  profissional : Option Profissional := none
  deriving Repr, DecidableEq

/-- JavaScript truthiness default for optional strings: the expression
x || d yields d when x is undefined, null or the empty string. -/
def jsOr (x : Option String) (d : String) : String :=
  match x with
  | some s => if s = "" then d else s
  | none => d

/-- JavaScript truthiness for an optional boolean: only some true counts. -/
def jsTruthy (x : Option Bool) : Bool := x == some true

/-- Abstract rendering of date-fns-tz format of a timestamp converted to
the America Sao_Paulo timezone with UTC offset; the model only needs an
injective printable form. -/
def formatSaoPaulo (t : Nat) : String := "SP" ++ toString t

/-- Wire payload shape (STTPayload in stt.types.ts).  casoId is Option
String so that the undefined produced by buildPayloadFromPrisma when no
scheduling linkage exists is representable; buildPayload always yields
some string for it. -/
structure STTPayload where
  status : String
  tipoAtendimentoMedico : String
  prioridade : String
  queixaDuracao : String
  tipoQueixa : String
  historiaPregressaMolestiaAtual : String
  antecedentesPessoais : String
  detalharDiagnostico : String
  hipoteseDiagnostica : String
  cids : List Cid
  conduta : String
  atestado : Bool
  prescricao : Bool
  solicitaoExames : Bool
  desfecho : String
  casoId : Option String
  dataInicioAtendimento : Option String
  dataFimAtendimento : String
  pdf : String
  crm : String
  deriving Repr, DecidableEq

/-- Attendance-start timestamp: falls back from atendimentoIniciadoEm to
profissionalAcessouEm and is null when neither exists (shared ternary of
both payload builders). -/
def dataInicioOf (ct : Option ConsultaTempo) : Option String :=
  match ct.bind ConsultaTempo.atendimentoIniciadoEm with
  | some t => some (formatSaoPaulo t)
  | none =>
    match ct.bind ConsultaTempo.profissionalAcessouEm with
    | some t => some (formatSaoPaulo t)
    | none => none

/-- Attendance-end timestamp: atendimentoFinalizadoEm when recorded,
otherwise the current time in the fixed timezone. -/
def dataFimOf (ct : Option ConsultaTempo) (now : Nat) : String :=
  match ct.bind ConsultaTempo.atendimentoFinalizadoEm with
  | some t => formatSaoPaulo t
  | none => formatSaoPaulo now

/-- Shallow embedding of STTSendService.buildPayload.  The pdfBase64
argument is the result of the awaited gerarPdfEvolucao call (empty string
on rendering failure); now is the Date used for the dataFim default. -/
def buildPayload (c : ConsultaCompleta) (pdfBase64 : String) (now : Nat) : STTPayload :=
  { status := jsOr (c.evolucao.bind Evolucao.status) "Efetivo"
    tipoAtendimentoMedico :=
      jsOr (c.evolucao.bind Evolucao.tipoAtendimentoMedico) "OMV"
    prioridade := "Normal"
    queixaDuracao := jsOr (c.evolucao.bind Evolucao.queixaDuracao) ""
    tipoQueixa := jsOr (c.evolucao.bind Evolucao.tipoQueixa) ""
    historiaPregressaMolestiaAtual :=
      jsOr (c.evolucao.bind Evolucao.historiaProgressa) ""
    antecedentesPessoais :=
      if jsTruthy (c.evolucao.bind Evolucao.antecedentePessoal) then
        jsOr (c.evolucao.bind Evolucao.antecedentePessoalDetalhes) "Sim"
      else "Nao"
    detalharDiagnostico := jsOr (c.evolucao.bind Evolucao.diagnosticoDetalhado) ""
    hipoteseDiagnostica := jsOr (c.evolucao.bind Evolucao.hipoteseDiagnostica) ""
    cids := (c.evolucao.bind Evolucao.cids).getD []
    conduta := jsOr (c.evolucao.bind Evolucao.conduta) ""
    atestado := jsTruthy (c.evolucao.bind Evolucao.atestado)
    prescricao := jsTruthy (c.evolucao.bind Evolucao.prescricao)
    solicitaoExames := jsTruthy (c.evolucao.bind Evolucao.solicitacaoExames)
    desfecho := jsOr (c.evolucao.bind Evolucao.desfecho) ""
    casoId := some (jsOr (c.agendamentoStt.map AgendamentoStt.codigoInterno) "")
    dataInicioAtendimento := dataInicioOf c.consultaTempo
    dataFimAtendimento := dataFimOf c.consultaTempo now
    pdf := pdfBase64
    crm := jsOr (c.profissional.bind Profissional.registro) "" }

/-- Shallow embedding of STTSendService.buildPayloadFromPrisma, the
builder used by the preview-payload endpoint.  It differs from
buildPayload in casoId, which is passed through without the empty-string
default and is undefined (none) when no scheduling linkage exists. -/
def buildPayloadFromPrisma (c : ConsultaCompleta) (pdfBase64 : String)
    (now : Nat) : STTPayload :=
  { status := jsOr (c.evolucao.bind Evolucao.status) "Efetivo"
    tipoAtendimentoMedico :=
      jsOr (c.evolucao.bind Evolucao.tipoAtendimentoMedico) "OMV"
    prioridade := "Normal"
    queixaDuracao := jsOr (c.evolucao.bind Evolucao.queixaDuracao) ""
    tipoQueixa := jsOr (c.evolucao.bind Evolucao.tipoQueixa) ""
    historiaPregressaMolestiaAtual :=
      jsOr (c.evolucao.bind Evolucao.historiaProgressa) ""
    antecedentesPessoais :=
      if jsTruthy (c.evolucao.bind Evolucao.antecedentePessoal) then
        jsOr (c.evolucao.bind Evolucao.antecedentePessoalDetalhes) "Sim"
      else "Nao"
    detalharDiagnostico := jsOr (c.evolucao.bind Evolucao.diagnosticoDetalhado) ""
    hipoteseDiagnostica := jsOr (c.evolucao.bind Evolucao.hipoteseDiagnostica) ""
    cids :=
      ((c.evolucao.bind Evolucao.cids).map
        (List.map (fun cid => { codigo := cid.codigo, descricao := cid.descricao,
                                principal := cid.principal : Cid }))).getD []
    conduta := jsOr (c.evolucao.bind Evolucao.conduta) ""
    atestado := jsTruthy (c.evolucao.bind Evolucao.atestado)
    prescricao := jsTruthy (c.evolucao.bind Evolucao.prescricao)
    solicitaoExames := jsTruthy (c.evolucao.bind Evolucao.solicitacaoExames)
    desfecho := jsOr (c.evolucao.bind Evolucao.desfecho) ""
    casoId := c.agendamentoStt.map AgendamentoStt.codigoInterno
    dataInicioAtendimento := dataInicioOf c.consultaTempo
    dataFimAtendimento := dataFimOf c.consultaTempo now
    pdf := pdfBase64
    crm := jsOr (c.profissional.bind Profissional.registro) "" }

/-- HTTP response as seen by sendToSTT: status, serialized body and
headers, the optional error field of the body, and the status text. -/
structure HttpResponse where
  status : Int
  body : String := ""
  headers : String := ""
  dataError : Option String := none
  statusText : String := ""
  deriving Repr, DecidableEq

/-- Outcome of enviarHttpRequest: either a response was received
(non-2xx responses included, and axios errors carrying a response are
returned rather than thrown), or a transport error was thrown. -/
inductive DispatchRes
  | resp (r : HttpResponse)
  | transportErr (msg : String)
  deriving Repr, DecidableEq

/-- Result tags of the orchestrator (SendResult.status). -/
inductive SendStatus
  | SENT
  | BLOCKED
  | LOCK_FAILED
  | ERROR
  | DRY_RUN
  deriving Repr, DecidableEq

/-- Result shape of STTSendService.sendToSTT. -/
structure SendResult where
  success : Bool
  status : SendStatus
  reason : Option String := none
  httpStatus : Option Int := none
  deriving Repr, DecidableEq

/-- Observable side effects of one sendToSTT invocation: each releaseLock
call and each outbound HTTP dispatch. -/
inductive Ev
  | release
  | outbound
  deriving Repr, DecidableEq

/-- Environment of one sendToSTT invocation: the clock, the test-mode
flag, the fetched consulta (none models buscarDadosConsulta returning
null), the rendered document, and the injectable outcomes of the build,
dispatch and record steps (some msg models a thrown exception). -/
structure SendEnv where
  now : Nat
  modoTeste : Bool := false
  fetch : Option ConsultaCompleta := none
  pdf : String := ""
  buildErr : Option String := none
  dispatch : DispatchRes := .transportErr "timeout"
  recordErr : Option String := none
  deriving Repr, DecidableEq

/-- Abstract injective JSON.stringify of a payload, used for the
payload_enviado audit snapshot. -/
def encodePayload (p : STTPayload) : String :=
  p.status ++ "|" ++ p.tipoAtendimentoMedico ++ "|" ++ p.queixaDuracao ++ "|" ++
    p.conduta ++ "|" ++ toString p.cids.length ++ "|" ++ p.pdf ++ "|" ++ p.crm

/-- Shallow embedding of STTSendService.atualizarResultado: records the
dispatch outcome on the control row, setting enviado and data_envio only
on status 200, snapshotting response and payload, clearing
processando_desde, and denormalizing display fields. -/
def atualizarResultado (db : List Controle) (now : Nat) (cid : String)
    (c : ConsultaCompleta) (payload : STTPayload) (resp : HttpResponse) :
    List Controle :=
  let sucesso := resp.status == 200
  db.map (fun r =>
    if r.consultaId == cid then
      { r with
        enviado := sucesso
        dataEnvio := if sucesso then some now else none
        respostaStatusCode := some resp.status
        respostaBody := some resp.body
        respostaHeaders := some resp.headers
        respostaErro := if sucesso then none
          else some (jsOr resp.dataError resp.statusText)
        payloadEnviado := some (encodePayload payload)
        processandoDesde := none
        pacienteNome := c.paciente.map Paciente.nome
        profissionalNome := (c.profissional.bind Profissional.user).map UserRec.name
        profissionalRegistro := c.profissional.bind Profissional.registro
        codigoInternoStt := c.agendamentoStt.map AgendamentoStt.codigoInterno
        updatedAt := now }
    else r)

/-- Simulated response synthesized in test mode. -/
def simulatedResponse : HttpResponse :=
  { status := 200, body := "simulated", headers := "x-simulated", statusText := "OK" }

/-- Shallow embedding of STTSendService.sendToSTT.  The returned triple is
the SendResult, the database after the invocation, and the trace of
observable effects.  Every exit of the source goes through the finally
block, so every branch below ends with a releaseLock; the fetch-not-found
branch additionally performs the explicit early release of the source. -/
def sendToSTT (env : SendEnv) (db : List Controle) (cid v : String) :
    SendResult × List Controle × List Ev :=
  let chk := canSendToSTT db env.now cid
  if chk.canSend = false then
    ({ success := false, status := .BLOCKED, reason := chk.reason },
     releaseLock db env.now cid, [.release])
  else
    match acquireLock db env.now cid v with
    | (locked, db1) =>
      if locked = false then
        let chk2 := canSendToSTT db1 env.now cid
        ({ success := false, status := .LOCK_FAILED,
           reason := some (chk2.reason.getD "Nao foi possivel adquirir lock") },
         releaseLock db1 env.now cid, [.release])
      else
        match env.fetch with
        | none =>
            ({ success := false, status := .ERROR,
               reason := some "Consulta nao encontrada" },
             releaseLock (releaseLock db1 env.now cid) env.now cid,
             [.release, .release])
        | some consulta =>
          match env.buildErr with
          | some msg =>
              ({ success := false, status := .ERROR, reason := some msg },
               releaseLock (registrarErro db1 env.now cid msg none) env.now cid,
               [.release])
          | none =>
            let payload := buildPayload consulta env.pdf env.now
            if env.modoTeste then
              match env.recordErr with
              | some msg =>
                  ({ success := false, status := .ERROR, reason := some msg },
                   releaseLock (registrarErro db1 env.now cid msg none) env.now cid,
                   [.release])
              | none =>
                  ({ success := true, status := .SENT,
                     httpStatus := some simulatedResponse.status },
                   releaseLock
                     (atualizarResultado db1 env.now cid consulta payload
                       simulatedResponse) env.now cid,
                   [.release])
            else
              match env.dispatch with
              | .transportErr msg =>
                  ({ success := false, status := .ERROR, reason := some msg },
                   releaseLock (registrarErro db1 env.now cid msg none) env.now cid,
                   [.outbound, .release])
              | .resp resp =>
                match env.recordErr with
                | some msg =>
                    ({ success := false, status := .ERROR, reason := some msg },
                     releaseLock (registrarErro db1 env.now cid msg none) env.now cid,
                     [.outbound, .release])
                | none =>
                    ({ success := true, status := .SENT,
                       httpStatus := some resp.status },
                     releaseLock
                       (atualizarResultado db1 env.now cid consulta payload resp)
                       env.now cid,
                     [.outbound, .release])

/-- Joined row over which the findPendingConsultas query ranges: the
consulta with the facts the WHERE clause inspects (status, inner join on
agendamentos_stt, left join on evolucoes). -/
structure ConsultaRow where
  id : String
  voucher : String
  status : String
  updatedAt : Nat
  hasEvolucao : Bool
  hasAgendamentoStt : Bool
  deriving Repr, DecidableEq

/-- Projection returned by findPendingConsultas (PendingConsulta in
stt.types.ts), with COALESCE(sec.tentativas, 0). -/
structure PendingConsulta where
  consulta_id : String
  voucher : String
  updated_at : Nat
  tentativas : Nat
  ultima_tentativa : Option Nat := none
  processando_desde : Option Nat := none
  deriving Repr, DecidableEq

/-- Retry-eligibility disjunct of the findPendingConsultas WHERE clause:
no control row at all, or not delivered, under three attempts, retry due,
and no live lock (the 5-minute interval is hardcoded in this query). -/
def elegivelRetry (sec : Option Controle) (now : Nat) : Bool :=
  match sec with
  | none => true
  | some r =>
      r.enviado == false &&
      decide (r.tentativas < 3) &&
      (match r.proximoRetry with
        | none => true
        | some t => decide (t ≤ now)) &&
      (match r.processandoDesde with
        | none => true
        | some pd => decide (pd + 5 * 60 * 1000 < now))

/-- Full WHERE clause of findPendingConsultas for one joined row. -/
def pendenteWhere (db : List Controle) (now : Nat) (days : Nat)
    (c : ConsultaRow) : Bool :=
  c.status == "finalizada" && c.hasAgendamentoStt && c.hasEvolucao &&
    decide (now ≤ c.updatedAt + days * 86400000) &&
    elegivelRetry (db.find? (fun r => r.consultaId == c.id)) now

/-- Insertion into a list kept in descending updatedAt order (model of
ORDER BY updatedAt DESC). -/
def insertDesc (c : ConsultaRow) : List ConsultaRow → List ConsultaRow
  | [] => [c]
  | d :: ds => if d.updatedAt ≤ c.updatedAt then c :: d :: ds else d :: insertDesc c ds

/-- Insertion sort by descending updatedAt. -/
def sortDesc : List ConsultaRow → List ConsultaRow
  | [] => []
  | c :: cs => insertDesc c (sortDesc cs)

/-- Projection of one selected row, joining its control row. -/
def toPending (db : List Controle) (c : ConsultaRow) : PendingConsulta :=
  match db.find? (fun r => r.consultaId == c.id) with
  | some r =>
      { consulta_id := c.id, voucher := c.voucher, updated_at := c.updatedAt,
        tentativas := r.tentativas, ultima_tentativa := r.ultimaTentativa,
        processando_desde := r.processandoDesde }
  | none =>
      { consulta_id := c.id, voucher := c.voucher, updated_at := c.updatedAt,
        tentativas := 0 }

/-- Shallow embedding of STTService.findPendingConsultas: filter by the
WHERE clause, order by updatedAt descending, cap at the limit, and
project each row. -/
def findPendingConsultas (consultas : List ConsultaRow) (db : List Controle)
    (now : Nat) (days limit : Nat) : List PendingConsulta :=
  ((sortDesc (consultas.filter (pendenteWhere db now days))).take limit).map
    (toPending db)

/-- Options of one batch invocation (ProcessOptions in stt.types.ts). -/
structure ProcessOptions where
  days : Nat
  limit : Nat
  dryRun : Bool
  deriving Repr, DecidableEq

/-- Per-item detail of the run report. -/
structure Detalhe where
  voucher : String
  status : SendStatus
  reason : Option String := none
  tentativas : Option Nat := none
  error : Option String := none
  deriving Repr, DecidableEq

/-- Run report of one batch invocation (ProcessResult in stt.types.ts). -/
structure ProcessResult where
  total : Nat
  processados : Nat
  sucesso : Nat
  bloqueados : Nat
  erros : Nat
  detalhes : List Detalhe
  deriving Repr, DecidableEq

/-- Loop body of processarPendentes for one pending consulta: in dry-run
mode only a DRY_RUN detail is appended; in live mode sendToSTT runs and
the counters are updated by the if and else-if chain of the source. -/
def processOne (envOf : String → SendEnv) (dryRun : Bool)
    (acc : ProcessResult × List Controle × List Ev) (p : PendingConsulta) :
    ProcessResult × List Controle × List Ev :=
  let (res, dbCur, evs) := acc
  if dryRun then
    ({ res with
       detalhes := res.detalhes ++
         [{ voucher := p.voucher, status := .DRY_RUN,
            tentativas := some p.tentativas }] },
     dbCur, evs)
  else
    match sendToSTT (envOf p.consulta_id) dbCur p.consulta_id p.voucher with
    | (sr, db1, evs1) =>
        ({ res with
           processados := res.processados + 1
           sucesso := res.sucesso + (if sr.success then 1 else 0)
           bloqueados := res.bloqueados +
             (if sr.success then 0
              else if sr.status == .BLOCKED || sr.status == .LOCK_FAILED then 1
              else 0)
           erros := res.erros +
             (if sr.success then 0
              else if sr.status == .BLOCKED || sr.status == .LOCK_FAILED then 0
              else 1)
           detalhes := res.detalhes ++
             [{ voucher := p.voucher, status := sr.status, reason := sr.reason,
                tentativas := some (p.tentativas + 1) }] },
         db1, evs ++ evs1)

/-- Shallow embedding of STTService.processarPendentes: cleanup of stuck
locks first, then the candidate scan, then the sequential loop. -/
def processarPendentes (envOf : String → SendEnv)
    (consultas : List ConsultaRow) (db : List Controle) (now : Nat)
    (opts : ProcessOptions) : ProcessResult × List Controle × List Ev :=
  let db1 := (cleanupStuckLocks db now).2
  let pendentes := findPendingConsultas consultas db1 now opts.days opts.limit
  pendentes.foldl (processOne envOf opts.dryRun)
    ({ total := pendentes.length, processados := 0, sucesso := 0,
       bloqueados := 0, erros := 0, detalhes := [] }, db1, [])

/-- Control row of the C1 and C2 scenarios: not delivered, lock taken at
time 1000 (the current instant of the scenario). -/
def r2Row : Controle :=
  { consultaId := "R2", voucher := "V2", enviado := false, tentativas := 1,
    processandoDesde := some 1000 }

/-- Row state after the second acquireLock of the C1 scenario. -/
def r2RowAfterSecondAcquire : Controle :=
  { r2Row with tentativas := 2, ultimaTentativa := some 1000, updatedAt := 1000 }

/-- Row state after the C2 invocation: the finally-block release cleared
the lock held by the other worker. -/
def r2RowAfterBlocked : Controle :=
  { r2Row with processandoDesde := none, updatedAt := 1000 }

/-- C1: the claim says that with a live lock (processingSince = now) a
second acquireLock affects zero rows and returns false.  Evaluating the
embedded upsert at that exact input shows the opposite: the DO UPDATE
WHERE clause only excludes delivered-200 rows, so the update affects the
row (tentativas is incremented, processandoDesde kept) and acquireLock
returns true.  The lock-acquisition failure the spec describes never
happens for a live lock on an undelivered row. -/
theorem C1_acquireLock_live_lock_affects_row :
    acquireLock [r2Row] 1000 "R2" "V2" = (true, [r2RowAfterSecondAcquire]) ∧
    r2RowAfterSecondAcquire.tentativas = 2 ∧
    r2RowAfterSecondAcquire.processandoDesde = some 1000 ∧
    r2Row.processandoDesde = some 1000 ∧ r2Row.enviado = false := by
  decide

/-- Environment of the C2 scenario: only the clock matters, since the
invocation short-circuits at the canSend check. -/
def envBlocked : SendEnv := { now := 1000 }

/-- C2: the claim says a disallowed canSend check makes sendToSTT return
BLOCKED with the control row, in particular processingSince, unchanged.
Evaluating the embedded pipeline on a row whose lock is live shows the
result is indeed BLOCKED, but the finally-block releaseLock still runs
and clears processingSince, mutating the row (and erasing the lock of
the worker that holds it). -/
theorem C2_blocked_clears_lock :
    (sendToSTT envBlocked [r2Row] "R2" "V2").1.status = SendStatus.BLOCKED ∧
    (sendToSTT envBlocked [r2Row] "R2" "V2").1.success = false ∧
    (sendToSTT envBlocked [r2Row] "R2" "V2").2.1 = [r2RowAfterBlocked] ∧
    r2RowAfterBlocked.processandoDesde = none ∧
    r2Row.processandoDesde = some 1000 := by
  decide

/-- C4 counterexample: on the fetch-not-found path the source releases
the lock explicitly and then again in the finally block, so the release
step runs twice in that invocation, not exactly once as claimed.  The
run below starts with no control row, passes the check, acquires the
lock by insert, and then fails the fetch. -/
theorem C4_release_twice_on_fetch_not_found :
    (sendToSTT { now := 5 } ([] : List Controle) "R1" "V1").2.2.count
      Ev.release = 2 ∧
    (sendToSTT { now := 5 } ([] : List Controle) "R1" "V1").1.status =
      SendStatus.ERROR := by
  decide

/-- C4 amended: the release step runs on every exit path of sendToSTT,
exactly once on every path except fetch-not-found, where the explicit
early release of the source makes it run twice (releaseLock is
idempotent, so the second run is harmless). -/
theorem C4_release_count_amended (env : SendEnv) (db : List Controle)
    (cid v : String) :
    (sendToSTT env db cid v).2.2.count Ev.release =
      (if (canSendToSTT db env.now cid).canSend &&
          (acquireLock db env.now cid v).1 && env.fetch.isNone then 2
       else 1) := by
  unfold sendToSTT
  rcases hacq : acquireLock db env.now cid v with ⟨locked, db1⟩
  cases h1 : (canSendToSTT db env.now cid).canSend <;>
    cases locked <;>
    cases hf : env.fetch <;>
    cases hb : env.buildErr <;>
    cases hm : env.modoTeste <;>
    cases hd : env.dispatch <;>
    cases hr : env.recordErr <;>
      simp [h1, hacq, hf, hb, hm, hd, hr, List.count_cons, List.count_nil]

/-- Detail entry recorded for one candidate in dry-run mode. -/
def dryDetail (p : PendingConsulta) : Detalhe :=
  { voucher := p.voucher, status := .DRY_RUN, tentativas := some p.tentativas }

/-- Helper: the dry-run loop only appends DRY_RUN details and leaves the
database, the effect trace and every counter untouched. -/
theorem foldl_processOne_dryRun (envOf : String → SendEnv)
    (ps : List PendingConsulta) (res : ProcessResult) (db : List Controle)
    (evs : List Ev) :
    ps.foldl (processOne envOf true) (res, db, evs) =
      ({ res with detalhes := res.detalhes ++ ps.map dryDetail }, db, evs) := by
  induction ps generalizing res with
  | nil => simp
  | cons p ps ih =>
      simp [List.foldl_cons, processOne, ih, dryDetail, List.append_assoc]

/-- C3 amended: a dry-run batch performs zero outbound calls, leaves the
database exactly as the initial cleanupStuckLocks sweep left it (so no
candidate is locked or otherwise mutated by the loop, though the sweep
itself may clear stale locks), tags every reported item DRY_RUN, and
processes nothing. -/
theorem C3_dry_run_purity_amended (envOf : String → SendEnv)
    (consultas : List ConsultaRow) (db : List Controle) (now days limit : Nat) :
    (processarPendentes envOf consultas db now
        { days := days, limit := limit, dryRun := true }).2.2 = [] ∧
    (processarPendentes envOf consultas db now
        { days := days, limit := limit, dryRun := true }).2.1 =
      (cleanupStuckLocks db now).2 ∧
    (∀ d ∈ (processarPendentes envOf consultas db now
        { days := days, limit := limit, dryRun := true }).1.detalhes,
      d.status = SendStatus.DRY_RUN) ∧
    (processarPendentes envOf consultas db now
        { days := days, limit := limit, dryRun := true }).1.processados = 0 := by
  have h := foldl_processOne_dryRun envOf
    (findPendingConsultas consultas (cleanupStuckLocks db now).2 now days limit)
    { total := (findPendingConsultas consultas (cleanupStuckLocks db now).2
        now days limit).length,
      processados := 0, sucesso := 0, bloqueados := 0, erros := 0, detalhes := [] }
    (cleanupStuckLocks db now).2 []
  unfold processarPendentes
  rw [h]
  refine ⟨rfl, rfl, ?_, rfl⟩
  intro d hd
  simp only [List.nil_append, List.mem_map] at hd
  obtain ⟨p, _, rfl⟩ := hd
  rfl

/-- Control row of the C3 counterexample: an abandoned lock, older than
twice the lock timeout, on an undelivered record. -/
def stuckRow : Controle :=
  { consultaId := "c1", voucher := "v1", enviado := false, tentativas := 1,
    processandoDesde := some 0 }

/-- C3 counterexample: the claim says a dry-run invocation leaves every
control row unchanged, but processarPendentes runs cleanupStuckLocks
before checking dryRun, so a stuck lock is cleared even in dry-run mode
and the database after the invocation differs from the initial one. -/
theorem C3_dry_run_mutates_stuck_lock :
    (processarPendentes (fun _ => { now := 600001 }) [] [stuckRow] 600001
        { days := 7, limit := 50, dryRun := true }).2.1 ≠ [stuckRow] ∧
    (processarPendentes (fun _ => { now := 600001 }) [] [stuckRow] 600001
        { days := 7, limit := 50, dryRun := true }).2.1 =
      [{ stuckRow with processandoDesde := none, updatedAt := 600001 }] := by
  decide

/-- Consulta row used by the C3 witness batch. -/
def c3Consulta : ConsultaRow :=
  { id := "c1", voucher := "v1", status := "finalizada", updatedAt := 600000,
    hasEvolucao := true, hasAgendamentoStt := true }

/-- C3 witness: the amended dry-run theorem instantiated on a concrete
batch with one candidate; its detail is tagged DRY_RUN. -/
theorem C3_dry_run_witness :
    (processarPendentes (fun _ => { now := 600001 }) [c3Consulta] [stuckRow]
        600001 { days := 7, limit := 50, dryRun := true }).2.2 = [] ∧
    (dryDetail (toPending (cleanupStuckLocks [stuckRow] 600001).2 c3Consulta)
        ∈ (processarPendentes (fun _ => { now := 600001 }) [c3Consulta]
            [stuckRow] 600001 { days := 7, limit := 50, dryRun := true
          }).1.detalhes ∧
      (dryDetail (toPending (cleanupStuckLocks [stuckRow] 600001).2
          c3Consulta)).status = SendStatus.DRY_RUN) := by
  refine ⟨(C3_dry_run_purity_amended (fun _ => { now := 600001 }) [c3Consulta]
      [stuckRow] 600001 7 50).1, ?_, ?_⟩
  · decide
  · exact (C3_dry_run_purity_amended (fun _ => { now := 600001 }) [c3Consulta]
      [stuckRow] 600001 7 50).2.2.1 _ (by decide)

/-- Helper: find? returns the designated element when it satisfies the
predicate and is the only member doing so. -/
theorem find?_unique {α : Type} {p : α → Bool} {r : α} :
    ∀ {l : List α}, r ∈ l → p r = true → (∀ x ∈ l, p x = true → x = r) →
      l.find? p = some r := by
  intro l
  induction l with
  | nil => intro h; cases h
  | cons a l ih =>
      intro hm hp huniq
      by_cases ha : p a = true
      · have : a = r := huniq a (List.mem_cons_self a l) ha
        simp [List.find?, this ▸ ha, this]
      · have hne : a ≠ r := fun h => ha (h ▸ hp)
        have hm' : r ∈ l := by
          rcases List.mem_cons.mp hm with h | h
          · exact absurd h.symm hne
          · exact h
        simp only [List.find?, Bool.of_not_eq_true ha]
        exact ih hm' hp (fun x hx hpx => huniq x (List.mem_cons_of_mem a hx) hpx)

/-- Helper: membership is preserved by the ordered insertion. -/
theorem mem_insertDesc {x c : ConsultaRow} :
    ∀ {l : List ConsultaRow}, x ∈ insertDesc c l → x = c ∨ x ∈ l := by
  intro l
  induction l with
  | nil => intro h; simpa [insertDesc] using h
  | cons d ds ih =>
      intro h
      simp only [insertDesc] at h
      split at h
      · rcases List.mem_cons.mp h with h | h
        · exact Or.inl h
        · exact Or.inr h
      · rcases List.mem_cons.mp h with h | h
        · exact Or.inr (List.mem_cons.mpr (Or.inl h))
        · rcases ih h with h | h
          · exact Or.inl h
          · exact Or.inr (List.mem_cons.mpr (Or.inr h))

/-- Helper: membership in the sorted list implies membership in the
original list. -/
theorem mem_of_mem_sortDesc {x : ConsultaRow} :
    ∀ {l : List ConsultaRow}, x ∈ sortDesc l → x ∈ l := by
  intro l
  induction l with
  | nil => intro h; simp [sortDesc] at h
  | cons c cs ih =>
      intro h
      rcases mem_insertDesc h with h | h
      · exact h ▸ List.mem_cons_self c cs
      · exact List.mem_cons_of_mem c (ih h)

/-- Helper: every element returned by findPendingConsultas comes from a
joined row passing the WHERE clause, and carries its consulta id. -/
theorem findPendingConsultas_sound {consultas : List ConsultaRow}
    {db : List Controle} {now days limit : Nat} {p : PendingConsulta}
    (h : p ∈ findPendingConsultas consultas db now days limit) :
    ∃ c ∈ consultas, pendenteWhere db now days c = true ∧
      p.consulta_id = c.id := by
  unfold findPendingConsultas at h
  rcases List.mem_map.mp h with ⟨c, hc, rfl⟩
  have hc1 : c ∈ sortDesc (consultas.filter (pendenteWhere db now days)) :=
    List.take_subset _ _ hc
  have hc2 := mem_of_mem_sortDesc hc1
  refine ⟨c, (List.mem_filter.mp hc2).1, (List.mem_filter.mp hc2).2, ?_⟩
  unfold toPending
  cases db.find? (fun r => r.consultaId == c.id) <;> rfl

/-- C5: once a control row records a delivered record with response
status 200, canSendToSTT reports disallowed with a reason carrying the
delivery timestamp, and findPendingConsultas never returns that record,
so it is never re-sent. -/
theorem C5_no_resend_after_success (consultas : List ConsultaRow)
    (db : List Controle) (now days limit : Nat) (cid : String) (r : Controle)
    (hm : r ∈ db) (hid : r.consultaId = cid) (henv : r.enviado = true)
    (hst : r.respostaStatusCode = some 200)
    (huniq : ∀ x ∈ db, x.consultaId = cid → x = r) :
    (canSendToSTT db now cid).canSend = false ∧
    (canSendToSTT db now cid).reason =
      some ("Ja enviado com sucesso em " ++ fmtDataEnvio r.dataEnvio) ∧
    ∀ p ∈ findPendingConsultas consultas db now days limit,
      p.consulta_id ≠ cid := by
  have hpred : jaEnviadoPred cid r = true := by
    simp [jaEnviadoPred, hid, henv, hst]
  have hfind : db.find? (jaEnviadoPred cid) = some r := by
    refine find?_unique hm hpred ?_
    intro x hx hpx
    have : x.consultaId = cid := by
      have := (Bool.and_eq_true _ _).mp ((Bool.and_eq_true _ _).mp hpx).1
      simpa using this.1
    exact huniq x hx this
  have hfind2 : db.find? (fun x => x.consultaId == cid) = some r := by
    refine find?_unique hm (by simp [hid]) ?_
    intro x hx hpx
    exact huniq x hx (by simpa using hpx)
  refine ⟨?_, ?_, ?_⟩
  · unfold canSendToSTT
    rw [hfind]
  · unfold canSendToSTT
    rw [hfind]
  · intro p hp hpc
    rcases findPendingConsultas_sound hp with ⟨c, _, hw, hpid⟩
    have hcid : c.id = cid := hpid ▸ hpc
    have hel : elegivelRetry (db.find? (fun x => x.consultaId == c.id)) now
        = true := by
      have := (Bool.and_eq_true _ _).mp hw
      exact this.2
    rw [hcid, hfind2] at hel
    simp [elegivelRetry, henv] at hel

/-- C6: a control row with three attempts and not delivered is excluded
from findPendingConsultas, whatever its nextRetryAt value. -/
theorem C6_retry_cap (consultas : List ConsultaRow) (db : List Controle)
    (now days limit : Nat) (cid : String) (r : Controle)
    (hm : r ∈ db) (hid : r.consultaId = cid) (_henv : r.enviado = false)
    (htent : r.tentativas = 3)
    (huniq : ∀ x ∈ db, x.consultaId = cid → x = r) :
    ∀ p ∈ findPendingConsultas consultas db now days limit,
      p.consulta_id ≠ cid := by
  have hfind2 : db.find? (fun x => x.consultaId == cid) = some r := by
    refine find?_unique hm (by simp [hid]) ?_
    intro x hx hpx
    exact huniq x hx (by simpa using hpx)
  intro p hp hpc
  rcases findPendingConsultas_sound hp with ⟨c, _, hw, hpid⟩
  have hcid : c.id = cid := hpid ▸ hpc
  have hel : elegivelRetry (db.find? (fun x => x.consultaId == c.id)) now
      = true := by
    have := (Bool.and_eq_true _ _).mp hw
    exact this.2
  rw [hcid, hfind2] at hel
  simp [elegivelRetry, htent] at hel

/-- Control row of the C5 witness: delivered with status 200. -/
def deliveredRow : Controle :=
  { consultaId := "c1", voucher := "v1", enviado := true,
    dataEnvio := some 42, tentativas := 1, respostaStatusCode := some 200 }

/-- Joined consulta row of the C5 witness. -/
def c5Consulta : ConsultaRow :=
  { id := "c1", voucher := "v1", status := "finalizada", updatedAt := 40,
    hasEvolucao := true, hasAgendamentoStt := true }

/-- C5 witness: the no-resend theorem instantiated on a one-row database
holding a delivered-200 control row. -/
theorem C5_witness :
    deliveredRow ∈ [deliveredRow] ∧ deliveredRow.enviado = true ∧
    deliveredRow.respostaStatusCode = some 200 ∧
    (canSendToSTT [deliveredRow] 50 "c1").canSend = false ∧
    (canSendToSTT [deliveredRow] 50 "c1").reason =
      some ("Ja enviado com sucesso em " ++ fmtDataEnvio deliveredRow.dataEnvio) ∧
    ∀ p ∈ findPendingConsultas [c5Consulta] [deliveredRow] 50 7 50,
      p.consulta_id ≠ "c1" := by
  have h := C5_no_resend_after_success [c5Consulta] [deliveredRow] 50 7 50 "c1"
    deliveredRow (by decide) (by decide) (by decide) (by decide) (by decide)
  exact ⟨by decide, by decide, by decide, h.1, h.2.1, h.2.2⟩

/-- Control row of the C6 witness: three attempts, not delivered, with a
retry already due. -/
def cappedRow : Controle :=
  { consultaId := "c2", voucher := "v2", enviado := false, tentativas := 3,
    proximoRetry := some 0 }

/-- Joined consulta row of the C6 witness. -/
def c6Consulta : ConsultaRow :=
  { id := "c2", voucher := "v2", status := "finalizada", updatedAt := 40,
    hasEvolucao := true, hasAgendamentoStt := true }

/-- C6 witness: the retry-cap theorem instantiated on a one-row database
holding an attempts-3 undelivered control row whose retry is due. -/
theorem C6_witness :
    cappedRow ∈ [cappedRow] ∧ cappedRow.enviado = false ∧
    cappedRow.tentativas = 3 ∧
    ∀ p ∈ findPendingConsultas [c6Consulta] [cappedRow] 50 7 50,
      p.consulta_id ≠ "c2" := by
  have h := C6_retry_cap [c6Consulta] [cappedRow] 50 7 50 "c2" cappedRow
    (by decide) (by decide) (by decide) (by decide) (by decide)
  exact ⟨by decide, by decide, by decide, h⟩

/-- C7: building a payload from a record with no clinical note fills the
documented defaults (clinical status Efetivo, attendance type OMV, issued
document booleans false, free-text fields empty, antecedentes Nao, empty
cid list), the attendance-end timestamp defaults to the current time in
the fixed timezone when no completion timestamp exists, and the
attendance-start timestamp falls back from the formal start milestone to
the professional-joined milestone and is null when neither exists. -/
theorem C7_payload_defaults (c : ConsultaCompleta) (pdfB : String) (now : Nat)
    (h : c.evolucao = none) :
    (buildPayload c pdfB now).status = "Efetivo" ∧
    (buildPayload c pdfB now).tipoAtendimentoMedico = "OMV" ∧
    (buildPayload c pdfB now).prioridade = "Normal" ∧
    (buildPayload c pdfB now).queixaDuracao = "" ∧
    (buildPayload c pdfB now).tipoQueixa = "" ∧
    (buildPayload c pdfB now).historiaPregressaMolestiaAtual = "" ∧
    (buildPayload c pdfB now).antecedentesPessoais = "Nao" ∧
    (buildPayload c pdfB now).detalharDiagnostico = "" ∧
    (buildPayload c pdfB now).hipoteseDiagnostica = "" ∧
    (buildPayload c pdfB now).cids = [] ∧
    (buildPayload c pdfB now).conduta = "" ∧
    (buildPayload c pdfB now).atestado = false ∧
    (buildPayload c pdfB now).prescricao = false ∧
    (buildPayload c pdfB now).solicitaoExames = false ∧
    (buildPayload c pdfB now).desfecho = "" ∧
    (c.consultaTempo.bind ConsultaTempo.atendimentoFinalizadoEm = none →
      (buildPayload c pdfB now).dataFimAtendimento = formatSaoPaulo now) ∧
    (∀ t, c.consultaTempo.bind ConsultaTempo.atendimentoIniciadoEm = some t →
      (buildPayload c pdfB now).dataInicioAtendimento =
        some (formatSaoPaulo t)) ∧
    (∀ t, c.consultaTempo.bind ConsultaTempo.atendimentoIniciadoEm = none →
      c.consultaTempo.bind ConsultaTempo.profissionalAcessouEm = some t →
      (buildPayload c pdfB now).dataInicioAtendimento =
        some (formatSaoPaulo t)) ∧
    (c.consultaTempo.bind ConsultaTempo.atendimentoIniciadoEm = none →
      c.consultaTempo.bind ConsultaTempo.profissionalAcessouEm = none →
      (buildPayload c pdfB now).dataInicioAtendimento = none) := by
  refine ⟨?_, ?_, ?_, ?_, ?_, ?_, ?_, ?_, ?_, ?_, ?_, ?_, ?_, ?_, ?_,
    ?_, ?_, ?_, ?_⟩
  · simp [buildPayload, h, jsOr]
  · simp [buildPayload, h, jsOr]
  · rfl
  · simp [buildPayload, h, jsOr]
  · simp [buildPayload, h, jsOr]
  · simp [buildPayload, h, jsOr]
  · simp [buildPayload, h, jsOr, jsTruthy]
  · simp [buildPayload, h, jsOr]
  · simp [buildPayload, h, jsOr]
  · simp [buildPayload, h]
  · simp [buildPayload, h, jsOr]
  · simp [buildPayload, h, jsTruthy]
  · simp [buildPayload, h, jsTruthy]
  · simp [buildPayload, h, jsTruthy]
  · simp [buildPayload, h, jsOr]
  · intro h1; simp [buildPayload, dataFimOf, h1]
  · intro t h1; simp [buildPayload, dataInicioOf, h1]
  · intro t h1 h2; simp [buildPayload, dataInicioOf, h1, h2]
  · intro h1 h2; simp [buildPayload, dataInicioOf, h1, h2]

/-- Fetched consulta of the C7 witness: no clinical note and no timing
milestones at all. -/
def c7Consulta : ConsultaCompleta :=
  { id := "c7", voucher := "v7", status := "finalizada" }

/-- C7 witness: the defaulting theorem instantiated on a concrete record
without a clinical note; the attendance end falls back to the clock and
the attendance start is null. -/
theorem C7_witness :
    c7Consulta.evolucao = none ∧
    (buildPayload c7Consulta "" 99).status = "Efetivo" ∧
    (buildPayload c7Consulta "" 99).tipoAtendimentoMedico = "OMV" ∧
    (buildPayload c7Consulta "" 99).antecedentesPessoais = "Nao" ∧
    (buildPayload c7Consulta "" 99).atestado = false ∧
    (buildPayload c7Consulta "" 99).dataFimAtendimento = formatSaoPaulo 99 ∧
    (buildPayload c7Consulta "" 99).dataInicioAtendimento = none := by
  have h := C7_payload_defaults c7Consulta "" 99 (by decide)
  exact ⟨by decide, h.1, h.2.1, h.2.2.2.2.2.2.1,
    h.2.2.2.2.2.2.2.2.2.2.2.1,
    h.2.2.2.2.2.2.2.2.2.2.2.2.2.2.2.1 (by decide),
    h.2.2.2.2.2.2.2.2.2.2.2.2.2.2.2.2.2.2 (by decide) (by decide)⟩

/-- Helper: after registrarErro followed by the finally release, every
row of the consulta carries the error text, the fixed 30-minute retry
time, and a cleared lock. -/
theorem errPath_fields (db : List Controle) (now : Nat) (cid msg : String) :
    ∀ r ∈ releaseLock (registrarErro db now cid msg none) now cid,
      r.consultaId = cid →
      r.respostaErro = some msg ∧
      r.proximoRetry = some (now + RETRY_BACKOFF_MS) ∧
      r.processandoDesde = none := by
  intro r hr hrid
  unfold releaseLock registrarErro at hr
  rw [List.map_map] at hr
  rcases List.mem_map.mp hr with ⟨r0, _, rfl⟩
  by_cases h0 : (r0.consultaId == cid) = true
  · simp [Function.comp, h0, calculateNextRetry]
  · exfalso
    apply h0
    simp only [Function.comp, if_neg h0] at hrid
    simp [hrid]

/-- Helper: a successful acquireLock leaves a row for the consulta in the
database (the inserted row, or the updated conflicting row). -/
theorem acquireLock_exists (db : List Controle) (now : Nat) (cid v : String)
    (h : (acquireLock db now cid v).1 = true) :
    ∃ r ∈ (acquireLock db now cid v).2, r.consultaId = cid := by
  unfold acquireLock at h ⊢
  cases hf : db.find? (fun r => r.consultaId == cid) with
  | none =>
      refine ⟨acquireNewRow now cid v, ?_, rfl⟩
      simp
  | some r0 =>
      simp only [hf] at h ⊢
      rcases List.any_eq_true.mp h with ⟨x, hx, hpx⟩
      refine ⟨acquireUpdRow now x, ?_, ?_⟩
      · rcases List.mem_map.mp (List.mem_map_of_mem _ hx) with _
        exact List.mem_map.mpr ⟨x, hx, by simp [hpx]⟩
      · have : (x.consultaId == cid) = true := ((Bool.and_eq_true _ _).mp hpx).1
        simpa [acquireUpdRow] using this

/-- Helper: a row for the consulta survives registrarErro and the final
release, with its consulta id intact. -/
theorem exists_cid_errPath (db : List Controle) (now : Nat) (cid msg : String)
    (h : ∃ r ∈ db, r.consultaId = cid) :
    ∃ r ∈ releaseLock (registrarErro db now cid msg none) now cid,
      r.consultaId = cid := by
  rcases h with ⟨r, hr, hrid⟩
  unfold releaseLock registrarErro
  refine ⟨_, List.mem_map_of_mem _ (List.mem_map_of_mem _ hr), ?_⟩
  split <;> simp [hrid]

/-- C8: whenever sendToSTT passes the check and the lock and then fails
with an unhandled error inside the build, dispatch or record step, the
invocation returns an ERROR result carrying the error text, and the
control row afterwards has lastError populated, nextRetryAt equal to now
plus the fixed 30 minutes, and processingSince cleared. -/
theorem C8_error_recording (env : SendEnv) (db : List Controle)
    (cid v msg : String)
    (hchk : (canSendToSTT db env.now cid).canSend = true)
    (hlock : (acquireLock db env.now cid v).1 = true)
    (hfetch : env.fetch.isSome = true)
    (herr : env.buildErr = some msg ∨
      (env.buildErr = none ∧ env.modoTeste = false ∧
        env.dispatch = DispatchRes.transportErr msg) ∨
      (env.buildErr = none ∧ env.modoTeste = true ∧
        env.recordErr = some msg) ∨
      (env.buildErr = none ∧ env.modoTeste = false ∧
        (∃ resp, env.dispatch = DispatchRes.resp resp) ∧
        env.recordErr = some msg)) :
    (sendToSTT env db cid v).1.status = SendStatus.ERROR ∧
    (sendToSTT env db cid v).1.success = false ∧
    (sendToSTT env db cid v).1.reason = some msg ∧
    (∃ r ∈ (sendToSTT env db cid v).2.1, r.consultaId = cid) ∧
    (∀ r ∈ (sendToSTT env db cid v).2.1, r.consultaId = cid →
      r.respostaErro = some msg ∧
      r.proximoRetry = some (env.now + RETRY_BACKOFF_MS) ∧
      r.processandoDesde = none) := by
  rcases hacq : acquireLock db env.now cid v with ⟨locked, db1⟩
  have hlocked : locked = true := by rw [hacq] at hlock; exact hlock
  subst hlocked
  have hex1 : ∃ r ∈ db1, r.consultaId = cid := by
    have := acquireLock_exists db env.now cid v (by rw [hacq])
    rw [hacq] at this
    exact this
  rcases hfs : env.fetch with _ | consulta
  · rw [hfs] at hfetch; simp at hfetch
  · rcases herr with hb | ⟨hb, hm, hd⟩ | ⟨hb, hm, hr⟩ | ⟨hb, hm, ⟨resp, hd⟩, hr⟩
    · simp only [sendToSTT, hchk, hacq, hfs, hb]
      refine ⟨by simp, by simp, by simp, ?_, ?_⟩
      · simpa using exists_cid_errPath db1 env.now cid msg hex1
      · simpa using errPath_fields db1 env.now cid msg
    · simp only [sendToSTT, hchk, hacq, hfs, hb, hm, hd]
      refine ⟨by simp, by simp, by simp, ?_, ?_⟩
      · simpa using exists_cid_errPath db1 env.now cid msg hex1
      · simpa using errPath_fields db1 env.now cid msg
    · simp only [sendToSTT, hchk, hacq, hfs, hb, hm, hr]
      refine ⟨by simp, by simp, by simp, ?_, ?_⟩
      · simpa using exists_cid_errPath db1 env.now cid msg hex1
      · simpa using errPath_fields db1 env.now cid msg
    · simp only [sendToSTT, hchk, hacq, hfs, hb, hm, hd, hr]
      refine ⟨by simp, by simp, by simp, ?_, ?_⟩
      · simpa using exists_cid_errPath db1 env.now cid msg hex1
      · simpa using errPath_fields db1 env.now cid msg

/-- Fetched consulta of the C8 witness. -/
def c8Consulta : ConsultaCompleta :=
  { id := "cx", voucher := "vx", status := "finalizada" }

/-- Environment of the C8 witness: the build step throws. -/
def envC8 : SendEnv :=
  { now := 7, fetch := some c8Consulta, buildErr := some "boom" }

/-- C8 witness: the error-recording theorem instantiated on an empty
database (the lock inserts the row) with a build-step exception. -/
theorem C8_witness :
    (canSendToSTT [] 7 "cx").canSend = true ∧
    (acquireLock [] 7 "cx" "vx").1 = true ∧
    (sendToSTT envC8 [] "cx" "vx").1.status = SendStatus.ERROR ∧
    (∃ r ∈ (sendToSTT envC8 [] "cx" "vx").2.1, r.consultaId = "cx") ∧
    (∀ r ∈ (sendToSTT envC8 [] "cx" "vx").2.1, r.consultaId = "cx" →
      r.respostaErro = some "boom" ∧
      r.proximoRetry = some (7 + RETRY_BACKOFF_MS) ∧
      r.processandoDesde = none) := by
  have h := C8_error_recording envC8 [] "cx" "vx" "boom" (by decide) (by decide)
    (by decide) (Or.inl rfl)
  exact ⟨by decide, by decide, h.1, h.2.2.2.1, h.2.2.2.2⟩

/-- Control row of the C9 counterexample and witness. -/
def c9Row : Controle := { consultaId := "c9", voucher := "v9", tentativas := 2 }

/-- C9 counterexample: the attempts counter is not monotonically
non-decreasing across all operations of the system: the retry-voucher
reset decrements it (from 2 to 1 here). -/
theorem C9_retry_voucher_decrements :
    (resetControle [c9Row] 5 "c9").map Controle.tentativas = [1] ∧
    c9Row.tentativas = 2 := by
  decide

/-- C9 amended: the attempts counter is preserved by releaseLock,
cleanupStuckLocks, registrarErro and atualizarResultado (in particular it
is not incremented per successful dispatch), acquireLock increments it by
exactly one on the rows it affects (and leaves delivered-200 rows
untouched), and the only decreasing operation is the retry-voucher reset,
which subtracts one floored at zero. -/
theorem C9_attempts_monotone_amended (db : List Controle) (now : Nat)
    (cid v msg : String) (sc : Option Int) (c : ConsultaCompleta)
    (pl : STTPayload) (resp : HttpResponse) (i : Nat) :
    ((releaseLock db now cid)[i]?).map Controle.tentativas =
      (db[i]?).map Controle.tentativas ∧
    (((cleanupStuckLocks db now).2)[i]?).map Controle.tentativas =
      (db[i]?).map Controle.tentativas ∧
    ((registrarErro db now cid msg sc)[i]?).map Controle.tentativas =
      (db[i]?).map Controle.tentativas ∧
    ((atualizarResultado db now cid c pl resp)[i]?).map Controle.tentativas =
      (db[i]?).map Controle.tentativas ∧
    (∀ r, db[i]? = some r →
      (((acquireLock db now cid v).2)[i]?).map Controle.tentativas =
        some (if (db.find? (fun x => x.consultaId == cid)).isSome &&
                 (r.consultaId == cid && acquireUpdWhere r)
              then r.tentativas + 1 else r.tentativas)) ∧
    (∀ r, db[i]? = some r →
      ((resetControle db now cid)[i]?).map Controle.tentativas =
        some (if r.consultaId == cid then r.tentativas - 1
              else r.tentativas)) := by
  refine ⟨?_, ?_, ?_, ?_, ?_, ?_⟩
  · unfold releaseLock
    rw [List.getElem?_map]
    cases db[i]? with
    | none => rfl
    | some r => simp only [Option.map_some']; split <;> rfl
  · unfold cleanupStuckLocks
    rw [List.getElem?_map]
    cases db[i]? with
    | none => rfl
    | some r => simp only [Option.map_some']; split <;> rfl
  · unfold registrarErro
    rw [List.getElem?_map]
    cases db[i]? with
    | none => rfl
    | some r => simp only [Option.map_some']; split <;> rfl
  · unfold atualizarResultado
    rw [List.getElem?_map]
    cases db[i]? with
    | none => rfl
    | some r => simp only [Option.map_some']; split <;> rfl
  · intro r hi
    unfold acquireLock
    cases hf : db.find? (fun x => x.consultaId == cid) with
    | none =>
        have hlen : i < db.length := by
          rcases List.getElem?_eq_some.mp hi with ⟨h, _⟩
          exact h
        rw [List.getElem?_append, if_pos hlen, hi]
        simp
    | some r0 =>
        rw [List.getElem?_map, hi]
        by_cases hc : (r.consultaId == cid && acquireUpdWhere r) = true
        · have hc1 : r.consultaId = cid := by
            have := (Bool.and_eq_true _ _).mp hc
            simpa using this.1
          have hc2 : acquireUpdWhere r = true := ((Bool.and_eq_true _ _).mp hc).2
          simp [hc, hc1, hc2, acquireUpdRow]
        · have hp : ¬(r.consultaId = cid ∧ acquireUpdWhere r = true) := by
            intro hq
            exact hc (by simp [hq.1, hq.2])
          simp [hc, hp]
  · intro r hi
    unfold resetControle
    rw [List.getElem?_map, hi]
    by_cases hc : (r.consultaId == cid) = true
    · have hc1 : r.consultaId = cid := by simpa using hc
      simp [hc, hc1]
    · have hc1 : ¬r.consultaId = cid := by simpa using hc
      simp [hc, hc1]

/-- C9 witness: the amended theorem instantiated on a one-row database:
acquireLock moves attempts from 2 to 3, the retry-voucher reset moves
them from 2 to 1, and atualizarResultado leaves them at 2. -/
theorem C9_witness :
    ([c9Row][0]? = some c9Row) ∧
    (((acquireLock [c9Row] 5 "c9" "v9").2)[0]?).map Controle.tentativas =
      some 3 ∧
    ((resetControle [c9Row] 5 "c9")[0]?).map Controle.tentativas = some 1 ∧
    ((atualizarResultado [c9Row] 5 "c9" c8Consulta
        (buildPayload c8Consulta "" 5) simulatedResponse)[0]?).map
      Controle.tentativas = some 2 := by
  have h := C9_attempts_monotone_amended [c9Row] 5 "c9" "v9" "m" none
    c8Consulta (buildPayload c8Consulta "" 5) simulatedResponse 0
  refine ⟨by decide, ?_, ?_, ?_⟩
  · exact (h.2.2.2.2.1 c9Row (by decide)).trans (by decide)
  · exact (h.2.2.2.2.2 c9Row (by decide)).trans (by decide)
  · exact h.2.2.2.1.trans (by decide)

/-- Fetched consulta of the C10 counterexample: no scheduling linkage. -/
def c10Consulta : ConsultaCompleta :=
  { id := "ca", voucher := "va", status := "finalizada" }

/-- C10 counterexample: the live-send builder and the preview builder do
not produce the same payload field for field: on a record with no
scheduling linkage the live send transmits an empty-string external case
code while the preview yields no value at all. -/
theorem C10_casoId_differs :
    buildPayload c10Consulta "" 0 ≠ buildPayloadFromPrisma c10Consulta "" 0 ∧
    (buildPayload c10Consulta "" 0).casoId = some "" ∧
    (buildPayloadFromPrisma c10Consulta "" 0).casoId = none ∧
    c10Consulta.agendamentoStt = none := by
  decide

/-- C10 amended: the two payload builders agree on every field except the
external case code: they agree on casoId whenever a scheduling linkage
exists, and when none exists the live-send builder produces the empty
string while the preview builder produces no value. -/
theorem C10_builders_agree_amended (c : ConsultaCompleta) (pdfB : String)
    (now : Nat) :
    (∀ ag, c.agendamentoStt = some ag →
      (buildPayload c pdfB now).casoId =
        (buildPayloadFromPrisma c pdfB now).casoId) ∧
    (c.agendamentoStt = none →
      (buildPayload c pdfB now).casoId = some "" ∧
      (buildPayloadFromPrisma c pdfB now).casoId = none) ∧
    (buildPayload c pdfB now).status = (buildPayloadFromPrisma c pdfB now).status ∧
    (buildPayload c pdfB now).tipoAtendimentoMedico =
      (buildPayloadFromPrisma c pdfB now).tipoAtendimentoMedico ∧
    (buildPayload c pdfB now).prioridade =
      (buildPayloadFromPrisma c pdfB now).prioridade ∧
    (buildPayload c pdfB now).queixaDuracao =
      (buildPayloadFromPrisma c pdfB now).queixaDuracao ∧
    (buildPayload c pdfB now).tipoQueixa =
      (buildPayloadFromPrisma c pdfB now).tipoQueixa ∧
    (buildPayload c pdfB now).historiaPregressaMolestiaAtual =
      (buildPayloadFromPrisma c pdfB now).historiaPregressaMolestiaAtual ∧
    (buildPayload c pdfB now).antecedentesPessoais =
      (buildPayloadFromPrisma c pdfB now).antecedentesPessoais ∧
    (buildPayload c pdfB now).detalharDiagnostico =
      (buildPayloadFromPrisma c pdfB now).detalharDiagnostico ∧
    (buildPayload c pdfB now).hipoteseDiagnostica =
      (buildPayloadFromPrisma c pdfB now).hipoteseDiagnostica ∧
    (buildPayload c pdfB now).cids = (buildPayloadFromPrisma c pdfB now).cids ∧
    (buildPayload c pdfB now).conduta =
      (buildPayloadFromPrisma c pdfB now).conduta ∧
    (buildPayload c pdfB now).atestado =
      (buildPayloadFromPrisma c pdfB now).atestado ∧
    (buildPayload c pdfB now).prescricao =
      (buildPayloadFromPrisma c pdfB now).prescricao ∧
    (buildPayload c pdfB now).solicitaoExames =
      (buildPayloadFromPrisma c pdfB now).solicitaoExames ∧
    (buildPayload c pdfB now).desfecho =
      (buildPayloadFromPrisma c pdfB now).desfecho ∧
    (buildPayload c pdfB now).dataInicioAtendimento =
      (buildPayloadFromPrisma c pdfB now).dataInicioAtendimento ∧
    (buildPayload c pdfB now).dataFimAtendimento =
      (buildPayloadFromPrisma c pdfB now).dataFimAtendimento ∧
    (buildPayload c pdfB now).pdf = (buildPayloadFromPrisma c pdfB now).pdf ∧
    (buildPayload c pdfB now).crm = (buildPayloadFromPrisma c pdfB now).crm := by
  refine ⟨?_, ?_, rfl, rfl, rfl, rfl, rfl, rfl, rfl, rfl, rfl, ?_, rfl, rfl,
    rfl, rfl, rfl, rfl, rfl, rfl, rfl⟩
  · intro ag hag
    have h1 : (buildPayload c pdfB now).casoId =
        some (jsOr (some ag.codigoInterno) "") := by
      simp [buildPayload, hag]
    have h2 : (buildPayloadFromPrisma c pdfB now).casoId =
        some ag.codigoInterno := by
      simp [buildPayloadFromPrisma, hag]
    rw [h1, h2]
    by_cases hs : ag.codigoInterno = ""
    · simp [jsOr, hs]
    · simp [jsOr, hs]
  · intro hag
    simp [buildPayload, buildPayloadFromPrisma, hag, jsOr]
  · cases hc : c.evolucao.bind Evolucao.cids with
    | none => simp [buildPayload, buildPayloadFromPrisma, hc]
    | some l =>
        simp only [buildPayload, buildPayloadFromPrisma, hc, Option.map_some,
          Option.getD_some]
        exact (List.map_id l).symm

/-- Fetched consulta of the C10 witness, with a scheduling linkage. -/
def c10WConsulta : ConsultaCompleta :=
  { id := "cb", voucher := "vb", status := "finalizada",
    agendamentoStt := some { codigoInterno := "K1", origem := "web" } }

/-- C10 witness: the amended agreement theorem instantiated on a record
with a scheduling linkage; the two builders agree on casoId there. -/
theorem C10_witness :
    c10WConsulta.agendamentoStt =
      some { codigoInterno := "K1", origem := "web" } ∧
    (buildPayload c10WConsulta "" 0).casoId =
      (buildPayloadFromPrisma c10WConsulta "" 0).casoId ∧
    (buildPayload c10WConsulta "" 0).status =
      (buildPayloadFromPrisma c10WConsulta "" 0).status := by
  have h := C10_builders_agree_amended c10WConsulta "" 0
  exact ⟨rfl, h.1 { codigoInterno := "K1", origem := "web" } rfl, h.2.2.1⟩

end WebhookSTT
